import Mathlib

set_option maxRecDepth 4000

/-!
Shallow embedding of `src/broker_buddy.py` (Broker Buddy, a Streamlit app
that runs four LLM analyses over a sales-call transcript and exports a PDF).

The remote completion provider (`openai.ChatCompletion.create`) and the JSON
parser (`json.loads`) are external library calls; they are modelled as
function parameters (`provider`, `parse`).  Everything else — the prompt
templates, the four task wrappers, the run-analysis button block, the
session-state update, and `generate_pdf` — is translated directly from the
source.
-/

namespace BrokerBuddy

/-- A JSON value as produced by `json.loads`.  JSON numbers are modelled as
integers (the CRM prompt requests string values; no arithmetic is ever done
on them). -/
inductive JValue where
  | null : JValue
  | bool : Bool → JValue
  | num : Int → JValue
  | str : String → JValue
  | arr : List JValue → JValue
  | obj : List (String × JValue) → JValue
deriving Repr, BEq

/-- Python truthiness test on a JSON-derived value: `None`, `False`, `0`,
empty string, empty list and empty dict are falsy (used by
`value or 'N/A'` in `generate_pdf`). -/
def JValue.isFalsy : JValue → Bool
  | .null => true
  | .bool b => !b
  | .num n => n == 0
  | .str s => s.isEmpty
  | .arr l => l.isEmpty
  | .obj l => l.isEmpty

mutual

/-- Python `repr` of a JSON-derived value (used for elements nested inside
lists and dicts when they are string-formatted). -/
def pyRepr : JValue → String
  | .null => "None"
  | .bool b => if b then "True" else "False"
  | .num n => toString n
  | .str s => "\x27" ++ s ++ "\x27"
  | .arr l => "[" ++ pyReprArr l ++ "]"
  | .obj l => "\x7b" ++ pyReprObj l ++ "\x7d"

def pyReprArr : List JValue → String
  | [] => ""
  | [v] => pyRepr v
  | v :: vs => pyRepr v ++ ", " ++ pyReprArr vs

def pyReprObj : List (String × JValue) → String
  | [] => ""
  | [kv] => "\x27" ++ kv.1 ++ "\x27: " ++ pyRepr kv.2
  | kv :: kvs => "\x27" ++ kv.1 ++ "\x27: " ++ pyRepr kv.2 ++ ", " ++ pyReprObj kvs

end

/-- Python `str` of a JSON-derived value (top-level string formatting in an
f-string: a `str` prints without quotes, everything else as its repr). -/
def pyStr : JValue → String
  | .str s => s
  | v => pyRepr v

/-- The keys of a JSON object, in order; `[]` for non-objects. -/
def JValue.keys : JValue → List String
  | .obj l => l.map Prod.fst
  | _ => []

/-- Lookup of a key in a JSON object (first occurrence), `none` otherwise. -/
def JValue.lookup (v : JValue) (k : String) : Option JValue :=
  match v with
  | .obj l => (l.find? (fun kv => kv.1 == k)).map Prod.snd
  | _ => none

/-- One step of Python `str.title`: an alphabetic character starting an
alphabetic run is uppercased, later characters of the run are lowercased. -/
def pyTitleGo : Bool → List Char → List Char
  | _, [] => []
  | prevAlpha, c :: cs =>
    (if c.isAlpha then (if prevAlpha then c.toLower else c.toUpper) else c)
      :: pyTitleGo c.isAlpha cs

/-- Python `str.title()`. -/
def pyTitle (s : String) : String := ⟨pyTitleGo false s.data⟩

/-- Python `key.replace('_', ' ')` as called in `generate_pdf` (line 176):
pattern and replacement are single characters there, so the call is a
per-character substitution. -/
def pyReplaceChar (s : String) (pat repl : Char) : String :=
  ⟨s.data.map fun c => if c = pat then repl else c⟩

/-- Whether a string survives `.encode("latin-1")`: every character fits in
a single byte. -/
def latin1Encodable (s : String) : Bool := s.data.all fun c => c.toNat < 256

/-- Python `s.startswith(pre)`: `pre` is a character-level prefix of `s`
(src/broker_buddy.py line 192 checks the fixed `sk-` prefix). -/
def pyStartswith (s pre : String) : Bool := pre.data.isPrefixOf s.data

/-- Modelled from the spec: the trimming (Python `str.strip`) that §4.3 of
the spec says the lender interpretation applies to the raw text — leading
and trailing whitespace removed.  `recommend_lender` in the source applies
no such operation; this definition exists to compare the spec against the
code. -/
def pyStrip (s : String) : String :=
  ⟨((s.data.dropWhile Char.isWhitespace).reverse.dropWhile
      Char.isWhitespace).reverse⟩

/-- One chat-completion request, as assembled by each task wrapper before
calling `openai.ChatCompletion.create`: model name, `(role, content)`
messages, `max_tokens` and sampling `temperature` (a rational: the script
only ever passes the literals 0.1, 0.2, 0.3). -/
structure Request where
  model : String
  messages : List (String × String)
  max_tokens : Nat
  temperature : ℚ
deriving Repr, DecidableEq

/-- The distinct exception kinds the `openai` client can raise, each
carrying the text that `str(e)` would produce. -/
inductive ProviderError where
  | authentication (msg : String) : ProviderError
  | rateLimit (msg : String) : ProviderError
  | apiError (msg : String) : ProviderError
  | invalidRequest (msg : String) : ProviderError
  | timeout (msg : String) : ProviderError
deriving Repr, DecidableEq

/-- Python `str(e)` for a provider exception. -/
def ProviderError.pyStr : ProviderError → String
  | .authentication m => m
  | .rateLimit m => m
  | .apiError m => m
  | .invalidRequest m => m
  | .timeout m => m

/-- The remote completion endpoint: maps a request to a completion text or
a raised provider exception.  Supplied as a parameter (dependency
injection for the external `openai` call). -/
def Provider : Type := Request → Except ProviderError String

/-- The external JSON parser (`json.loads`): maps text to a parsed value or
a parse-error message (`str` of the raised `JSONDecodeError`). -/
def JsonParser : Type := String → Except String JValue

/-- The compliance prompt template of `run_compliance_check`
(src/broker_buddy.py lines 43-55), rendered with the transcript embedded
verbatim; whitespace reproduces the Python f-string exactly. -/
def compliance_prompt (transcript : String) : String :=
  "Act as a senior FCA compliance officer. Analyze this financial services transcript:\n" ++
  "        - Check Consumer Duty (PROD) compliance\n" ++
  "        - Identify vulnerable customer indicators\n" ++
  "        - Verify product explanations (PCP/HP/Lease)\n" ++
  "        - Detect potential fraud indicators\n" ++
  "        - Assess information symmetry\n" ++
  "\n" ++
  "        Use UK financial regulations. Format response as:\n" ++
  "        🟢 [Compliant Areas]\n" ++
  "        🟠 [Minor Issues]  \n" ++
  "        🔴 [Critical Failures]\n" ++
  "\n" ++
  "        Transcript: " ++ transcript

/-- The sales-coaching prompt template of `run_sales_coaching`
(src/broker_buddy.py lines 71-80). -/
def sales_prompt (transcript : String) : String :=
  "As a top-performing sales coach, analyze this sales call:\n" ++
  "        - Rapport building effectiveness\n" ++
  "        - Needs discovery process\n" ++
  "        - Objection handling\n" ++
  "        - Closing techniques\n" ++
  "        - 3 actionable improvement suggestions\n" ++
  "\n" ++
  "        Focus on UK motor finance context. Use markdown bullet points.\n" ++
  "\n" ++
  "        Transcript: " ++ transcript

/-- The CRM-extraction prompt template of `extract_crm_data`
(src/broker_buddy.py lines 96-105); the doubled braces of the f-string
render as literal braces. -/
def crm_prompt (transcript : String) : String :=
  "Extract structured data from this transcript. Return valid JSON:\n" ++
  "        \x7b\n" ++
  "            \"deposit\": \"currency amount\",\n" ++
  "            \"term\": \"months\", \n" ++
  "            \"annual_mileage\": \"number\",\n" ++
  "            \"monthly_budget\": \"currency\",\n" ++
  "            \"vehicle_type\": \"string\",\n" ++
  "            \"business_use\": \"boolean\"\n" ++
  "        \x7d\n" ++
  "        Use null for missing values. Transcript: " ++ transcript

/-- The lender prompt template of `recommend_lender`
(src/broker_buddy.py lines 121-129). -/
def lender_prompt (transcript : String) : String :=
  "Classify lender suitability from UK motor finance transcript:\n" ++
  "        Options:\n" ++
  "        - Aldermore (Business/commercial use)\n" ++
  "        - Alphera (Standard personal)\n" ++
  "        - Close Brothers (Adverse credit)\n" ++
  "        - Blackhorse (Prime credit)\n" ++
  "        - Specialist (Unique circumstances)\n" ++
  "        \n" ++
  "        Return only the lender name. Transcript: " ++ transcript

/-- The request issued by `run_compliance_check`
(src/broker_buddy.py lines 58-63). -/
def complianceRequest (transcript : String) : Request :=
  { model := "gpt-4-turbo"
    messages := [("system", compliance_prompt transcript)]
    max_tokens := 400
    temperature := 2/10 }

/-- The request issued by `run_sales_coaching`
(src/broker_buddy.py lines 83-88). -/
def salesRequest (transcript : String) : Request :=
  { model := "gpt-4-turbo"
    messages := [("system", sales_prompt transcript)]
    max_tokens := 400
    temperature := 3/10 }

/-- The request issued by `extract_crm_data`
(src/broker_buddy.py lines 108-113). -/
def crmRequest (transcript : String) : Request :=
  { model := "gpt-4-turbo"
    messages := [("system", crm_prompt transcript)]
    max_tokens := 200
    temperature := 1/10 }

/-- The request issued by `recommend_lender`
(src/broker_buddy.py lines 132-137). -/
def lenderRequest (transcript : String) : Request :=
  { model := "gpt-4-turbo"
    messages := [("system", lender_prompt transcript)]
    max_tokens := 50
    temperature := 1/10 }

/-- The outcome of one task wrapper: the value returned into the results
slot, the `st.error` message displayed if an exception was caught, and the
single request the wrapper passed to the provider. -/
structure TaskCall (α : Type) where
  value : α
  shown : Option String
  request : Request

/-- `run_compliance_check` (src/broker_buddy.py lines 41-67): one
completion call; any exception is caught, displayed via `st.error`, and
replaced by the fixed fallback string. -/
def run_compliance_check (provider : Provider) (transcript : String) :
    TaskCall String :=
  match provider (complianceRequest transcript) with
  | .ok content => ⟨content, none, complianceRequest transcript⟩
  | .error e =>
      ⟨"Error in compliance analysis",
       some ("Compliance check failed: " ++ e.pyStr),
       complianceRequest transcript⟩

/-- `run_sales_coaching` (src/broker_buddy.py lines 69-92). -/
def run_sales_coaching (provider : Provider) (transcript : String) :
    TaskCall String :=
  match provider (salesRequest transcript) with
  | .ok content => ⟨content, none, salesRequest transcript⟩
  | .error e =>
      ⟨"Error in sales analysis",
       some ("Sales coaching failed: " ++ e.pyStr),
       salesRequest transcript⟩

/-- The fallback dict `extract_crm_data` returns when any exception is
caught (src/broker_buddy.py line 117). -/
def crmFailureValue : JValue :=
  .obj [("error", .str "Failed to extract CRM data")]

/-- `extract_crm_data` (src/broker_buddy.py lines 94-117): one completion
call whose response text is fed to `json.loads`; the parsed value is
returned exactly as parsed (no key normalization), and any exception —
from the provider or from the parse — is caught, displayed, and replaced
by `crmFailureValue`. -/
def extract_crm_data (provider : Provider) (parse : JsonParser)
    (transcript : String) : TaskCall JValue :=
  match provider (crmRequest transcript) with
  | .ok content =>
      match parse content with
      | .ok v => ⟨v, none, crmRequest transcript⟩
      | .error e =>
          ⟨crmFailureValue, some ("CRM extraction failed: " ++ e),
           crmRequest transcript⟩
  | .error e =>
      ⟨crmFailureValue, some ("CRM extraction failed: " ++ e.pyStr),
       crmRequest transcript⟩

/-- `recommend_lender` (src/broker_buddy.py lines 119-141): the raw
completion text is returned unchanged (no trimming, no validation against
the five lender names). -/
def recommend_lender (provider : Provider) (transcript : String) :
    TaskCall String :=
  match provider (lenderRequest transcript) with
  | .ok content => ⟨content, none, lenderRequest transcript⟩
  | .error e =>
      ⟨"Error in lender recommendation",
       some ("Lender recommendation failed: " ++ e.pyStr),
       lenderRequest transcript⟩

/-- The dict stored in `st.session_state.results`
(src/broker_buddy.py lines 211-216). -/
structure Results where
  compliance : String
  sales : String
  crm : JValue
  lender : String

/-- The four task calls of one valid run, in the order the script performs
them (src/broker_buddy.py lines 199-209). -/
structure RunRecord where
  compliance : TaskCall String
  sales : TaskCall String
  crm : TaskCall JValue
  lender : TaskCall String

/-- The body of the `with st.status` block on a valid trigger: run the four
task wrappers sequentially. -/
def runTasks (provider : Provider) (parse : JsonParser)
    (transcript : String) : RunRecord :=
  { compliance := run_compliance_check provider transcript
    sales := run_sales_coaching provider transcript
    crm := extract_crm_data provider parse transcript
    lender := recommend_lender provider transcript }

/-- The fresh results dict assembled from a run record
(src/broker_buddy.py lines 211-216). -/
def RunRecord.toResults (r : RunRecord) : Results :=
  ⟨r.compliance.value, r.sales.value, r.crm.value, r.lender.value⟩

/-- The requests a run record passed to the provider, in call order. -/
def RunRecord.callList (r : RunRecord) : List Request :=
  [r.compliance.request, r.sales.request, r.crm.request, r.lender.request]

/-- The visible outcome of pressing the run button: the API-key error, the
short-transcript warning, or a completed analysis. -/
inductive RunOutcome where
  | keyError : RunOutcome
  | shortTranscript : RunOutcome
  | completed : RunOutcome
deriving Repr, DecidableEq

/-- The state after one press of the run button: the outcome shown, the
session results slot afterwards, and the list of remote completion calls
made during the press. -/
structure RunState where
  outcome : RunOutcome
  stored : Option Results
  calls : List Request

/-- The run-analysis button block (src/broker_buddy.py lines 191-226):
validation of the API key (emptiness and the fixed `sk-` prefix) and of
the transcript length happens before any wrapper runs; on a valid trigger
the four wrappers run and `st.session_state.results` is replaced wholly by
the fresh dict; on a rejected trigger the prior results are untouched and
no remote call is made. -/
def run_analysis (provider : Provider) (parse : JsonParser)
    (api_key transcript : String) (prior : Option Results) : RunState :=
  if api_key = "" ∨ ¬ pyStartswith api_key "sk-" then
    ⟨.keyError, prior, []⟩
  else if transcript.length < 500 then
    ⟨.shortTranscript, prior, []⟩
  else
    let tasks := runTasks provider parse transcript
    ⟨.completed, some tasks.toResults, tasks.callList⟩

/-- One titled section of the generated PDF. -/
structure RSection where
  title : String
  body : List String
deriving Repr, DecidableEq

/-- The CRM section body of `generate_pdf` (src/broker_buddy.py lines
175-176): one line per dict entry, `Key Title: value`, with `N/A`
substituted for falsy values; `.items()` on a non-dict raises, which the
surrounding `except` turns into no document at all. -/
def crmBodyLines : JValue → Option (List String)
  | .obj kvs =>
      some (kvs.map fun kv =>
        pyTitle (pyReplaceChar kv.1 '_' ' ') ++ ": " ++
          (if kv.2.isFalsy then "N/A" else pyStr kv.2))
  | _ => none

/-- The four titled sections `generate_pdf` writes, in source order
(src/broker_buddy.py lines 157-183). -/
def renderSections (r : Results) : Option (List RSection) :=
  (crmBodyLines r.crm).map fun crmLines =>
    [⟨"Compliance Review", [r.compliance]⟩,
     ⟨"Sales Coaching", [r.sales]⟩,
     ⟨"CRM Data", crmLines⟩,
     ⟨"Lender Recommendation", [r.lender]⟩]

/-- Whether every character of a section fits the single-byte latin-1
encoding applied by `pdf.output(dest='S').encode('latin-1')`. -/
def latin1Section (s : RSection) : Bool :=
  latin1Encodable s.title && s.body.all latin1Encodable

/-- `generate_pdf` (src/broker_buddy.py lines 144-188): renders the four
sections and encodes the whole document as latin-1; any exception anywhere
(a non-dict CRM value, a character outside latin-1) is caught by the single
surrounding `except` and the function returns `None` — no partial document
is ever produced. -/
def generate_pdf (r : Results) : Option (List RSection) :=
  match renderSections r with
  | none => none
  | some secs => if secs.all latin1Section then some secs else none

/-- The six CRM keys named in the extraction prompt, in prompt order. -/
def crmSixKeys : List String :=
  ["deposit", "term", "annual_mileage", "monthly_budget", "vehicle_type",
   "business_use"]

/-! Concrete inputs used to evaluate the embedding on closed instances. -/

/-- A 500-character transcript (the minimum the button block accepts). -/
def exTranscript : String := ⟨List.replicate 500 'a'⟩

/-- A provider that fails every call with a generic API error. -/
def exFailProvider : Provider :=
  fun _ => .error (.apiError "The server had an error")

/-- A parser that fails on every input, with the message
`json.loads` produces on non-JSON text. -/
def exParseFail : JsonParser :=
  fun _ => .error "Expecting value: line 1 column 1 (char 0)"

/-- A CRM response text: a syntactically valid JSON object with one known
key bound to null and one extra key. -/
def exCrmRespText : String :=
  "\x7b\"deposit\": null, \"extra\": \"x\"\x7d"

/-- The value `json.loads` produces on `exCrmRespText`. -/
def exCrmParsed : JValue := .obj [("deposit", .null), ("extra", .str "x")]

/-- A provider whose completion text is `exCrmRespText`. -/
def exCrmProvider : Provider := fun _ => .ok exCrmRespText

/-- A parser behaving like `json.loads` on `exCrmRespText` and failing on
anything else. -/
def exCrmParse : JsonParser := fun s =>
  if s = exCrmRespText then .ok exCrmParsed
  else .error "Expecting value: line 1 column 1 (char 0)"

/-- A provider raising an authentication error on every call. -/
def exAuthProvider : Provider :=
  fun _ => .error (.authentication "Incorrect API key provided")

/-- A provider raising a rate-limit error on every call. -/
def exRateProvider : Provider :=
  fun _ => .error (.rateLimit "Rate limit reached for requests")

/-- A provider raising a malformed-request error on every call. -/
def exBadReqProvider : Provider :=
  fun _ => .error (.invalidRequest "Invalid request")

/-- A provider answering every call with an untrimmed lender label. -/
def exLenderProvider : Provider := fun _ => .ok " Alphera\n"

/-- A provider answering every call with a label outside the five known
lender names. -/
def exUnknownLenderProvider : Provider := fun _ => .ok "Gringotts"

/-- A provider answering every call with prose that is not JSON. -/
def exNotJsonProvider : Provider :=
  fun _ => .ok "I could not extract the data"

/-- A provider that fails exactly the CRM call (the only request with
`max_tokens = 200`), answers the lender call (the only one with
`max_tokens = 50`) with a label, and answers the compliance and sales
calls with text containing an emoji severity marker, as the compliance
prompt requests. -/
def exCrmFailProvider : Provider := fun r =>
  if r.max_tokens = 200 then .error (.apiError "The server had an error")
  else if r.max_tokens = 50 then .ok "Alphera"
  else .ok "🟢 All products explained clearly"

/-- A provider that fails exactly the CRM call and answers the other three
with plain ASCII text. -/
def exCrmOnlyFailProvider : Provider := fun r =>
  if r.max_tokens = 200 then
    .error (.rateLimit "Rate limit reached for requests")
  else if r.max_tokens = 50 then .ok "Alphera"
  else .ok "All areas compliant"

/-- A stored results dict whose compliance text contains an emoji severity
marker (outside latin-1). -/
def exEmojiResults : Results :=
  ⟨"🟢 All products explained clearly", "- Strong rapport building",
   .obj [("deposit", .str "500")], "Alphera"⟩

/-- A stored results dict whose compliance text starts with the 🟢 severity
marker the compliance prompt requests. -/
def exSeverityResults : Results :=
  ⟨"🟢 [Compliant Areas]: product explained", "- Good discovery",
   .obj [("term", .str "48")], "Blackhorse"⟩

/-- A stored results dict whose CRM slot is not a dict (so `.items()`
raises). -/
def exBadCrmResults : Results :=
  ⟨"All clear", "- Good discovery", .str "no data", "Alphera"⟩

/-- A stored results dict that renders entirely inside latin-1. -/
def exGoodResults : Results :=
  ⟨"All areas compliant", "- Strong rapport building",
   .obj [("deposit", .null), ("term", .str "48")], "Alphera"⟩

/-- The document `generate_pdf` produces from `exGoodResults`. -/
def exGoodSections : List RSection :=
  [⟨"Compliance Review", ["All areas compliant"]⟩,
   ⟨"Sales Coaching", ["- Strong rapport building"]⟩,
   ⟨"CRM Data", ["Deposit: N/A", "Term: 48"]⟩,
   ⟨"Lender Recommendation", ["Alphera"]⟩]

/-! Helper lemmas shared by the claim theorems. -/

/-- The compliance wrapper always calls the provider on its fixed request,
whatever the provider answers. -/
theorem run_compliance_check_request (provider : Provider) (t : String) :
    (run_compliance_check provider t).request = complianceRequest t := by
  unfold run_compliance_check
  cases provider (complianceRequest t) <;> rfl

/-- The sales wrapper always calls the provider on its fixed request. -/
theorem run_sales_coaching_request (provider : Provider) (t : String) :
    (run_sales_coaching provider t).request = salesRequest t := by
  unfold run_sales_coaching
  cases provider (salesRequest t) <;> rfl

/-- The CRM wrapper always calls the provider on its fixed request. -/
theorem extract_crm_data_request (provider : Provider) (parse : JsonParser)
    (t : String) : (extract_crm_data provider parse t).request = crmRequest t := by
  cases hp : provider (crmRequest t) with
  | error e => simp [extract_crm_data, hp]
  | ok content =>
      cases hj : parse content with
      | error e => simp [extract_crm_data, hp, hj]
      | ok v => simp [extract_crm_data, hp, hj]

/-- The lender wrapper always calls the provider on its fixed request. -/
theorem recommend_lender_request (provider : Provider) (t : String) :
    (recommend_lender provider t).request = lenderRequest t := by
  unfold recommend_lender
  cases provider (lenderRequest t) <;> rfl

/-- A valid run calls the provider on exactly the four task requests, in
source order. -/
theorem runTasks_callList (provider : Provider) (parse : JsonParser)
    (t : String) :
    (runTasks provider parse t).callList =
      [complianceRequest t, salesRequest t, crmRequest t, lenderRequest t] := by
  unfold runTasks RunRecord.callList
  rw [run_compliance_check_request, run_sales_coaching_request,
    extract_crm_data_request, recommend_lender_request]

/-- If the compliance text does not fit latin-1, the whole export fails. -/
theorem generate_pdf_none_of_compliance (r : Results)
    (h : latin1Encodable r.compliance = false) : generate_pdf r = none := by
  cases hcb : crmBodyLines r.crm with
  | none => simp [generate_pdf, renderSections, hcb]
  | some ls => simp [generate_pdf, renderSections, hcb, latin1Section, h]

/-- C4: for every run trigger whose transcript is shorter than 500
characters, or whose API key is empty or lacks the fixed sk- prefix, the
button block makes zero remote completion calls and shows a validation
message (the key error or the short-transcript warning) instead of any
analysis result. -/
theorem C4_validation_rejects (provider : Provider) (parse : JsonParser)
    (api_key transcript : String) (prior : Option Results)
    (h : transcript.length < 500 ∨ api_key = "" ∨
      pyStartswith api_key "sk-" = false) :
    (run_analysis provider parse api_key transcript prior).calls = [] ∧
    ((run_analysis provider parse api_key transcript prior).outcome =
        .keyError ∨
     (run_analysis provider parse api_key transcript prior).outcome =
        .shortTranscript) := by
  unfold run_analysis
  by_cases hk : api_key = "" ∨ ¬ pyStartswith api_key "sk-"
  · rw [if_pos hk]
    exact ⟨rfl, Or.inl rfl⟩
  · rw [if_neg hk]
    have hlen : transcript.length < 500 := by
      rcases h with h | h | h
      · exact h
      · exact absurd (Or.inl h) hk
      · exact absurd (Or.inr (by simp [h])) hk
    rw [if_pos hlen]
    exact ⟨rfl, Or.inr rfl⟩

/-- C4 witness: a 4-character transcript is rejected with no calls made. -/
theorem C4_validation_rejects_witness :
    (run_analysis exFailProvider exParseFail "sk-test" "tiny" none).calls =
      [] ∧
    ((run_analysis exFailProvider exParseFail "sk-test" "tiny" none).outcome =
        .keyError ∨
     (run_analysis exFailProvider exParseFail "sk-test" "tiny" none).outcome =
        .shortTranscript) :=
  C4_validation_rejects exFailProvider exParseFail "sk-test" "tiny" none
    (Or.inl (by decide))

/-- C6: every run that passes validation issues exactly the four remote
completion calls, in source order, with the task-specific budgets
(compliance 400 tokens at temperature 0.2, sales 400 at 0.3, CRM 200 at
0.1, lender 50 at 0.1), each carrying a single system-role message whose
content is the full rendered prompt. -/
theorem C6_four_calls_with_budgets (provider : Provider) (parse : JsonParser)
    (api_key transcript : String) (prior : Option Results)
    (hk : pyStartswith api_key "sk-" = true) (hl : 500 ≤ transcript.length) :
    (run_analysis provider parse api_key transcript prior).calls =
      [complianceRequest transcript, salesRequest transcript,
       crmRequest transcript, lenderRequest transcript] ∧
    (run_analysis provider parse api_key transcript prior).calls.length = 4 ∧
    (complianceRequest transcript).max_tokens = 400 ∧
    (complianceRequest transcript).temperature = 2/10 ∧
    (complianceRequest transcript).messages =
      [("system", compliance_prompt transcript)] ∧
    (salesRequest transcript).max_tokens = 400 ∧
    (salesRequest transcript).temperature = 3/10 ∧
    (salesRequest transcript).messages =
      [("system", sales_prompt transcript)] ∧
    (crmRequest transcript).max_tokens = 200 ∧
    (crmRequest transcript).temperature = 1/10 ∧
    (crmRequest transcript).messages =
      [("system", crm_prompt transcript)] ∧
    (lenderRequest transcript).max_tokens = 50 ∧
    (lenderRequest transcript).temperature = 1/10 ∧
    (lenderRequest transcript).messages =
      [("system", lender_prompt transcript)] := by
  have hk0 : ¬ (api_key = "" ∨ ¬ pyStartswith api_key "sk-") := by
    rintro (h | h)
    · rw [h] at hk
      exact absurd hk (by decide)
    · exact h hk
  have hcalls : (run_analysis provider parse api_key transcript prior).calls =
      [complianceRequest transcript, salesRequest transcript,
       crmRequest transcript, lenderRequest transcript] := by
    unfold run_analysis
    rw [if_neg hk0, if_neg (by omega)]
    exact runTasks_callList provider parse transcript
  refine ⟨hcalls, by rw [hcalls]; rfl, rfl, by norm_num [complianceRequest],
    rfl, rfl, by norm_num [salesRequest], rfl, rfl,
    by norm_num [crmRequest], rfl, rfl, by norm_num [lenderRequest], rfl⟩

/-- C6 witness: a valid key and a 500-character transcript produce the
four calls. -/
theorem C6_four_calls_with_budgets_witness :
    (run_analysis exFailProvider exParseFail "sk-test" exTranscript
        none).calls =
      [complianceRequest exTranscript, salesRequest exTranscript,
       crmRequest exTranscript, lenderRequest exTranscript] ∧
    (run_analysis exFailProvider exParseFail "sk-test" exTranscript
        none).calls.length = 4 ∧
    (complianceRequest exTranscript).max_tokens = 400 ∧
    (complianceRequest exTranscript).temperature = 2/10 ∧
    (complianceRequest exTranscript).messages =
      [("system", compliance_prompt exTranscript)] ∧
    (salesRequest exTranscript).max_tokens = 400 ∧
    (salesRequest exTranscript).temperature = 3/10 ∧
    (salesRequest exTranscript).messages =
      [("system", sales_prompt exTranscript)] ∧
    (crmRequest exTranscript).max_tokens = 200 ∧
    (crmRequest exTranscript).temperature = 1/10 ∧
    (crmRequest exTranscript).messages =
      [("system", crm_prompt exTranscript)] ∧
    (lenderRequest exTranscript).max_tokens = 50 ∧
    (lenderRequest exTranscript).temperature = 1/10 ∧
    (lenderRequest exTranscript).messages =
      [("system", lender_prompt exTranscript)] :=
  C6_four_calls_with_budgets exFailProvider exParseFail "sk-test"
    exTranscript none (by decide)
    (by unfold exTranscript
        rw [show (⟨List.replicate 500 'a'⟩ : String).length =
          (List.replicate 500 'a').length from rfl, List.length_replicate])

/-- C9: the stored session results slot is never partially mutated: one
press of the run button either leaves it exactly at its prior value (when
validation rejects the trigger) or replaces it wholly, in one assignment,
by a fresh dict holding all four task slots computed by this run alone —
the new value never depends on the prior one. -/
theorem C9_results_replaced_wholly (provider : Provider) (parse : JsonParser)
    (api_key transcript : String) (prior : Option Results) :
    (run_analysis provider parse api_key transcript prior).stored = prior ∨
    (run_analysis provider parse api_key transcript prior).stored =
      some ⟨(run_compliance_check provider transcript).value,
            (run_sales_coaching provider transcript).value,
            (extract_crm_data provider parse transcript).value,
            (recommend_lender provider transcript).value⟩ := by
  unfold run_analysis
  by_cases hk : api_key = "" ∨ ¬ pyStartswith api_key "sk-"
  · rw [if_pos hk]
    exact Or.inl rfl
  · rw [if_neg hk]
    by_cases hlen : transcript.length < 500
    · rw [if_pos hlen]
      exact Or.inl rfl
    · rw [if_neg hlen]
      exact Or.inr rfl

/-- C1 counterexample: on the valid JSON object text with one known key
bound to null and one extra key, the CRM interpretation keeps the parsed
object exactly as parsed — its key set is the two-element list, not the
six known keys, the extra key is kept, and the null is kept as null rather
than replaced by an unknown marker. -/
theorem C1_no_normalization_counterexample :
    (extract_crm_data exCrmProvider exCrmParse "call").value.keys =
      ["deposit", "extra"] ∧
    (extract_crm_data exCrmProvider exCrmParse "call").value.keys ≠
      crmSixKeys ∧
    (extract_crm_data exCrmProvider exCrmParse "call").value.lookup
      "deposit" = some .null := by
  refine ⟨rfl, by decide, rfl⟩

/-- C1 amended: the CRM interpretation performs no key normalization at
all: whenever the provider answers and the JSON parse succeeds, the slot
value is the parsed JSON value unchanged — absent keys stay absent, null
values stay null, extra keys are kept — and no failure is shown. -/
theorem C1_crm_returns_parsed_value (provider : Provider)
    (parse : JsonParser) (transcript s : String) (v : JValue)
    (hp : provider (crmRequest transcript) = .ok s)
    (hj : parse s = .ok v) :
    (extract_crm_data provider parse transcript).value = v ∧
    (extract_crm_data provider parse transcript).shown = none := by
  constructor <;> simp [extract_crm_data, hp, hj]

/-- C1 witness: the amended claim evaluated on the concrete object text
with a null known key and an extra key. -/
theorem C1_crm_returns_parsed_value_witness :
    (extract_crm_data exCrmProvider exCrmParse "call").value =
      exCrmParsed ∧
    (extract_crm_data exCrmProvider exCrmParse "call").shown = none :=
  C1_crm_returns_parsed_value exCrmProvider exCrmParse "call"
    exCrmRespText exCrmParsed rfl (by simp [exCrmParse])

/-- C5: whenever the CRM completion text is not parseable as JSON, the
interpretation yields the fixed failure dict — never a partially populated
extraction derived from the text — and the displayed failure message
embeds the parse error. -/
theorem C5_parse_failure_total (provider : Provider) (parse : JsonParser)
    (transcript s e : String)
    (hp : provider (crmRequest transcript) = .ok s)
    (hj : parse s = .error e) :
    (extract_crm_data provider parse transcript).value = crmFailureValue ∧
    (extract_crm_data provider parse transcript).shown =
      some ("CRM extraction failed: " ++ e) := by
  constructor <;> simp [extract_crm_data, hp, hj]

/-- C5 witness: a prose (non-JSON) CRM response yields the fixed failure
dict and a message embedding the json.loads error. -/
theorem C5_parse_failure_total_witness :
    (extract_crm_data exNotJsonProvider exParseFail "call").value =
      crmFailureValue ∧
    (extract_crm_data exNotJsonProvider exParseFail "call").shown =
      some ("CRM extraction failed: " ++
        "Expecting value: line 1 column 1 (char 0)") :=
  C5_parse_failure_total exNotJsonProvider exParseFail "call"
    "I could not extract the data"
    "Expecting value: line 1 column 1 (char 0)" rfl rfl

/-- C7 counterexample: an authentication failure and a rate-limit failure
— two distinct provider failure kinds — both leave the same single
generic string in the compliance slot, so the caller cannot tell them
apart from the slot value. -/
theorem C7_kinds_collapse_counterexample :
    (run_compliance_check exAuthProvider "call").value =
      "Error in compliance analysis" ∧
    (run_compliance_check exRateProvider "call").value =
      "Error in compliance analysis" ∧
    (run_compliance_check exAuthProvider "call").value =
      (run_compliance_check exRateProvider "call").value :=
  ⟨rfl, rfl, rfl⟩

/-- C7 amended: every provider failure of every one of the four task
calls, whatever its kind, is caught inside that task wrapper by its
uniform except clause and collapsed to the fixed generic per-task failure
value in the result slot — the fixed string for compliance, sales and
lender, the fixed error dict for CRM — so the caller cannot tell failure
kinds apart from the slot; the distinct kind survives only in the
displayed st.error message, which embeds the exception text. The distinct
except clauses of the button block never see the exception because the
wrappers swallow it. -/
theorem C7_uniform_catch (pa pb pc pd : Provider) (parse : JsonParser)
    (ta tb tc td : String) (ea eb ec ed : ProviderError)
    (ha : pa (complianceRequest ta) = .error ea)
    (hb : pb (salesRequest tb) = .error eb)
    (hc : pc (crmRequest tc) = .error ec)
    (hd : pd (lenderRequest td) = .error ed) :
    (run_compliance_check pa ta).value = "Error in compliance analysis" ∧
    (run_compliance_check pa ta).shown =
      some ("Compliance check failed: " ++ ea.pyStr) ∧
    (run_sales_coaching pb tb).value = "Error in sales analysis" ∧
    (run_sales_coaching pb tb).shown =
      some ("Sales coaching failed: " ++ eb.pyStr) ∧
    (extract_crm_data pc parse tc).value = crmFailureValue ∧
    (extract_crm_data pc parse tc).shown =
      some ("CRM extraction failed: " ++ ec.pyStr) ∧
    (recommend_lender pd td).value = "Error in lender recommendation" ∧
    (recommend_lender pd td).shown =
      some ("Lender recommendation failed: " ++ ed.pyStr) := by
  refine ⟨?_, ?_, ?_, ?_, ?_, ?_, ?_, ?_⟩ <;>
    simp [run_compliance_check, run_sales_coaching, extract_crm_data,
      recommend_lender, ha, hb, hc, hd]

/-- C7 witness: the amended claim evaluated with a distinct failure kind
per task — authentication on compliance, rate limit on sales, API error
on CRM, malformed request on lender. -/
theorem C7_uniform_catch_witness :
    (run_compliance_check exAuthProvider "call").value =
      "Error in compliance analysis" ∧
    (run_compliance_check exAuthProvider "call").shown =
      some ("Compliance check failed: " ++ "Incorrect API key provided") ∧
    (run_sales_coaching exRateProvider "call").value =
      "Error in sales analysis" ∧
    (run_sales_coaching exRateProvider "call").shown =
      some ("Sales coaching failed: " ++ "Rate limit reached for requests") ∧
    (extract_crm_data exFailProvider exParseFail "call").value =
      crmFailureValue ∧
    (extract_crm_data exFailProvider exParseFail "call").shown =
      some ("CRM extraction failed: " ++ "The server had an error") ∧
    (recommend_lender exBadReqProvider "call").value =
      "Error in lender recommendation" ∧
    (recommend_lender exBadReqProvider "call").shown =
      some ("Lender recommendation failed: " ++ "Invalid request") :=
  C7_uniform_catch exAuthProvider exRateProvider exFailProvider
    exBadReqProvider exParseFail "call" "call" "call" "call"
    (.authentication "Incorrect API key provided")
    (.rateLimit "Rate limit reached for requests")
    (.apiError "The server had an error")
    (.invalidRequest "Invalid request") rfl rfl rfl rfl

/-- C8 counterexample: on a lender response with surrounding whitespace
the interpretation returns the text untrimmed, differing from the trimmed
label the claim promises. -/
theorem C8_no_trim_counterexample :
    (recommend_lender exLenderProvider "call").value = " Alphera\n" ∧
    pyStrip " Alphera\n" = "Alphera" ∧
    (recommend_lender exLenderProvider "call").value ≠
      pyStrip " Alphera\n" := by
  refine ⟨rfl, by decide, by decide⟩

/-- C8 amended: the lender interpretation returns the raw completion text
completely unchanged — no trimming — and it never fails because of the
label content: any text, including labels outside the five known lender
names, is accepted with no failure shown. -/
theorem C8_lender_raw_text (provider : Provider) (transcript s : String)
    (hp : provider (lenderRequest transcript) = .ok s) :
    (recommend_lender provider transcript).value = s ∧
    (recommend_lender provider transcript).shown = none := by
  unfold recommend_lender
  rw [hp]
  exact ⟨rfl, rfl⟩

/-- C8 witness: a label outside the five known lender names is returned
as-is with no failure. -/
theorem C8_lender_raw_text_witness :
    (recommend_lender exUnknownLenderProvider "call").value = "Gringotts" ∧
    (recommend_lender exUnknownLenderProvider "call").shown = none :=
  C8_lender_raw_text exUnknownLenderProvider "call" "Gringotts" rfl

/-- The 500-character example transcript has length exactly 500. -/
theorem exTranscript_length : exTranscript.length = 500 := by
  unfold exTranscript
  rw [show (⟨List.replicate 500 'a'⟩ : String).length =
    (List.replicate 500 'a').length from rfl, List.length_replicate]

/-- When the CRM slot renders (it is a dict), the export is exactly the
latin-1 gate applied to the four fixed sections. -/
theorem generate_pdf_eq (r : Results) (ls : List String)
    (hcb : crmBodyLines r.crm = some ls) :
    generate_pdf r =
      if ([⟨"Compliance Review", [r.compliance]⟩,
           ⟨"Sales Coaching", [r.sales]⟩, ⟨"CRM Data", ls⟩,
           ⟨"Lender Recommendation", [r.lender]⟩].all latin1Section) then
        some [⟨"Compliance Review", [r.compliance]⟩,
              ⟨"Sales Coaching", [r.sales]⟩, ⟨"CRM Data", ls⟩,
              ⟨"Lender Recommendation", [r.lender]⟩]
      else none := by
  simp [generate_pdf, renderSections, hcb]

/-- C2 counterexample: a valid run (sk- key, 500-character transcript) in
which the provider fails exactly the CRM call and succeeds on the other
three completes with the three slots intact and only the CRM slot failed
— yet the exporter produces no sections at all, because the successful
compliance text carries the emoji severity marker its prompt requests and
the whole-document latin-1 encode then fails. -/
theorem C2_export_fails_counterexample :
    (run_analysis exCrmFailProvider exParseFail "sk-test" exTranscript
      none).outcome = .completed ∧
    (runTasks exCrmFailProvider exParseFail exTranscript).compliance.shown =
      none ∧
    (runTasks exCrmFailProvider exParseFail exTranscript).sales.shown =
      none ∧
    (runTasks exCrmFailProvider exParseFail exTranscript).lender.shown =
      none ∧
    (runTasks exCrmFailProvider exParseFail exTranscript).crm.shown =
      some "CRM extraction failed: The server had an error" ∧
    generate_pdf
      (runTasks exCrmFailProvider exParseFail exTranscript).toResults =
      none := by
  refine ⟨?_, rfl, rfl, rfl, rfl, by decide⟩
  unfold run_analysis
  rw [if_neg (by decide), if_neg (by rw [exTranscript_length]; omega)]

/-- C2 amended: in a valid run where the provider fails exactly the CRM
call and succeeds on the other three, the stored results hold the three
successful texts untouched and the fixed CRM failure dict — no task
aborts or corrupts another slot — and, provided the three returned texts
are latin-1 encodable, the exporter still produces all four sections,
with the CRM section showing the failure text. -/
theorem C2_crm_failure_isolated (provider : Provider) (parse : JsonParser)
    (api_key transcript : String) (prior : Option Results)
    (c s l : String) (e : ProviderError)
    (hk : pyStartswith api_key "sk-" = true) (hl : 500 ≤ transcript.length)
    (hc : provider (complianceRequest transcript) = .ok c)
    (hs : provider (salesRequest transcript) = .ok s)
    (hcrm : provider (crmRequest transcript) = .error e)
    (hlend : provider (lenderRequest transcript) = .ok l)
    (hlc : latin1Encodable c = true) (hls : latin1Encodable s = true)
    (hll : latin1Encodable l = true) :
    (run_analysis provider parse api_key transcript prior).stored =
      some (runTasks provider parse transcript).toResults ∧
    (runTasks provider parse transcript).compliance.value = c ∧
    (runTasks provider parse transcript).compliance.shown = none ∧
    (runTasks provider parse transcript).sales.value = s ∧
    (runTasks provider parse transcript).sales.shown = none ∧
    (runTasks provider parse transcript).lender.value = l ∧
    (runTasks provider parse transcript).lender.shown = none ∧
    (runTasks provider parse transcript).crm.value = crmFailureValue ∧
    (runTasks provider parse transcript).crm.shown =
      some ("CRM extraction failed: " ++ e.pyStr) ∧
    generate_pdf (runTasks provider parse transcript).toResults =
      some [⟨"Compliance Review", [c]⟩, ⟨"Sales Coaching", [s]⟩,
            ⟨"CRM Data", ["Error: Failed to extract CRM data"]⟩,
            ⟨"Lender Recommendation", [l]⟩] := by
  have hk0 : ¬ (api_key = "" ∨ ¬ pyStartswith api_key "sk-") := by
    rintro (h | h)
    · rw [h] at hk
      exact absurd hk (by decide)
    · exact h hk
  have hres : (runTasks provider parse transcript).toResults =
      ⟨c, s, crmFailureValue, l⟩ := by
    simp [runTasks, RunRecord.toResults, run_compliance_check,
      run_sales_coaching, extract_crm_data, recommend_lender, hc, hs, hcrm,
      hlend]
  have hstored : (run_analysis provider parse api_key transcript
      prior).stored = some (runTasks provider parse transcript).toResults := by
    unfold run_analysis
    rw [if_neg hk0, if_neg (by omega)]
  have hbody : crmBodyLines crmFailureValue =
      some ["Error: Failed to extract CRM data"] := by decide
  have hpdf : generate_pdf (runTasks provider parse transcript).toResults =
      some [⟨"Compliance Review", [c]⟩, ⟨"Sales Coaching", [s]⟩,
            ⟨"CRM Data", ["Error: Failed to extract CRM data"]⟩,
            ⟨"Lender Recommendation", [l]⟩] := by
    rw [hres]
    rw [generate_pdf_eq ⟨c, s, crmFailureValue, l⟩
      ["Error: Failed to extract CRM data"] hbody]
    have hCR : latin1Encodable "Compliance Review" = true := by decide
    have hSC : latin1Encodable "Sales Coaching" = true := by decide
    have hCD : latin1Encodable "CRM Data" = true := by decide
    have hLR : latin1Encodable "Lender Recommendation" = true := by decide
    have hERR : latin1Encodable "Error: Failed to extract CRM data" = true :=
      by decide
    rw [if_pos (by
      simp [latin1Section, hCR, hSC, hCD, hLR, hERR, hlc, hls, hll])]
  exact ⟨hstored, by simp [runTasks, run_compliance_check, hc],
    by simp [runTasks, run_compliance_check, hc],
    by simp [runTasks, run_sales_coaching, hs],
    by simp [runTasks, run_sales_coaching, hs],
    by simp [runTasks, recommend_lender, hlend],
    by simp [runTasks, recommend_lender, hlend],
    by simp [runTasks, extract_crm_data, hcrm],
    by simp [runTasks, extract_crm_data, hcrm], hpdf⟩

/-- C2 witness: the amended claim evaluated on a valid run whose provider
fails only the CRM call and answers the other calls in plain ASCII. -/
theorem C2_crm_failure_isolated_witness :
    (run_analysis exCrmOnlyFailProvider exParseFail "sk-test" exTranscript
        none).stored =
      some (runTasks exCrmOnlyFailProvider exParseFail
        exTranscript).toResults ∧
    (runTasks exCrmOnlyFailProvider exParseFail
      exTranscript).compliance.value = "All areas compliant" ∧
    (runTasks exCrmOnlyFailProvider exParseFail
      exTranscript).compliance.shown = none ∧
    (runTasks exCrmOnlyFailProvider exParseFail exTranscript).sales.value =
      "All areas compliant" ∧
    (runTasks exCrmOnlyFailProvider exParseFail exTranscript).sales.shown =
      none ∧
    (runTasks exCrmOnlyFailProvider exParseFail exTranscript).lender.value =
      "Alphera" ∧
    (runTasks exCrmOnlyFailProvider exParseFail exTranscript).lender.shown =
      none ∧
    (runTasks exCrmOnlyFailProvider exParseFail exTranscript).crm.value =
      crmFailureValue ∧
    (runTasks exCrmOnlyFailProvider exParseFail exTranscript).crm.shown =
      some ("CRM extraction failed: " ++
        (ProviderError.rateLimit "Rate limit reached for requests").pyStr) ∧
    generate_pdf (runTasks exCrmOnlyFailProvider exParseFail
        exTranscript).toResults =
      some [⟨"Compliance Review", ["All areas compliant"]⟩,
            ⟨"Sales Coaching", ["All areas compliant"]⟩,
            ⟨"CRM Data", ["Error: Failed to extract CRM data"]⟩,
            ⟨"Lender Recommendation", ["Alphera"]⟩] := by
  exact C2_crm_failure_isolated exCrmOnlyFailProvider exParseFail "sk-test"
    exTranscript none "All areas compliant" "All areas compliant" "Alphera"
    (.rateLimit "Rate limit reached for requests") (by decide)
    (by rw [exTranscript_length]) rfl rfl rfl rfl (by decide) (by decide)
    (by decide)

/-- C3 counterexample: a results dict whose compliance text carries an
emoji severity marker makes the exporter yield no document at all — zero
sections — rather than a four-section document. -/
theorem C3_total_export_counterexample :
    generate_pdf exEmojiResults = none := by decide

/-- C3 amended: export is all-or-nothing rather than total: whenever a
document is produced it has exactly the four fixed titled sections in
source order, but a non-latin-1 compliance text, or a CRM slot that is not
a dict, makes the exporter produce no document at all — no section of any
kind survives a rendering problem. -/
theorem C3_export_all_or_nothing (r : Results) :
    (∀ d : List RSection, generate_pdf r = some d →
      d.map RSection.title =
        ["Compliance Review", "Sales Coaching", "CRM Data",
         "Lender Recommendation"]) ∧
    (latin1Encodable r.compliance = false → generate_pdf r = none) ∧
    (crmBodyLines r.crm = none → generate_pdf r = none) := by
  refine ⟨?_, fun h => generate_pdf_none_of_compliance r h, ?_⟩
  · intro d hd
    cases hcb : crmBodyLines r.crm with
    | none =>
        have hnone : generate_pdf r = none := by
          simp [generate_pdf, renderSections, hcb]
        rw [hnone] at hd
        exact Option.noConfusion hd
    | some ls =>
        rw [generate_pdf_eq r ls hcb] at hd
        by_cases hall : ([⟨"Compliance Review", [r.compliance]⟩,
            ⟨"Sales Coaching", [r.sales]⟩, ⟨"CRM Data", ls⟩,
            ⟨"Lender Recommendation", [r.lender]⟩].all latin1Section) = true
        · rw [if_pos hall] at hd
          cases hd
          rfl
        · rw [if_neg hall] at hd
          exact Option.noConfusion hd
  · intro hcb
    simp [generate_pdf, renderSections, hcb]

/-- C3 witness: the amended claim evaluated on a fully latin-1 results
dict (four titled sections produced), an emoji results dict (no document)
and a non-dict CRM slot (no document). -/
theorem C3_export_all_or_nothing_witness :
    exGoodSections.map RSection.title =
      ["Compliance Review", "Sales Coaching", "CRM Data",
       "Lender Recommendation"] ∧
    generate_pdf exEmojiResults = none ∧
    generate_pdf exBadCrmResults = none :=
  ⟨(C3_export_all_or_nothing exGoodResults).1 exGoodSections (by decide),
   (C3_export_all_or_nothing exEmojiResults).2.1 (by decide),
   (C3_export_all_or_nothing exBadCrmResults).2.2 rfl⟩

/-- C10: the exporter encodes the whole rendered document as single-byte
latin-1 text, and the single surrounding exception handler returns no
document on any failure: whenever the compliance text holds a character
outside latin-1 (such as the emoji severity markers its own prompt
requests), the export yields nothing and not one section is produced. -/
theorem C10_latin1_failure_aborts_export (r : Results)
    (h : latin1Encodable r.compliance = false) :
    generate_pdf r = none :=
  generate_pdf_none_of_compliance r h

/-- C10 witness: a results dict whose compliance text starts with the 🟢
severity marker yields no document. -/
theorem C10_latin1_failure_aborts_export_witness :
    generate_pdf exSeverityResults = none :=
  C10_latin1_failure_aborts_export exSeverityResults (by decide)

end BrokerBuddy
